import Mathlib

/-!
Verification of `SauceDemo_Test_Automation/resources/libraries/BrowserOptions.py`.

The repository contains a single class `BrowserOptions` with one method,
`get_chrome_options_with_disabled_popups`, which builds a selenium
`ChromeOptions` object: it constructs a fresh `Options()`, installs one
experimental option `"prefs"` holding a five-entry preferences dictionary,
appends five command-line argument flags, and returns the object.

We shallow-embed the selenium `ChromeOptions` objects the method manipulates
and the method itself.  Python dictionaries are association lists (assignment
replaces an existing key or appends), Python lists are Lean lists,
and the one fallible primitive, selenium's `add_argument` (which raises
`ValueError` when the argument is falsy, i.e. the empty string), returns
`Except`.
-/

namespace BrowserOptionsLib

/-- A value stored in a Chrome preferences dictionary: the source stores
booleans and one small integer. -/
inductive PrefValue where
  | boolVal : Bool → PrefValue
  | intVal : Int → PrefValue
deriving DecidableEq

/-- A Python dict of preference keys to values, as an association list in
insertion order. -/
abbrev PrefDict := List (String × PrefValue)

/-- Shallow embedding of `selenium.webdriver.chrome.options.Options`:
the fields the method can touch, plus the frame fields (binary location,
extensions, debugger address, capabilities) that it must leave alone. -/
structure ChromeOptions where
  arguments : List String
  binary_location : String
  extension_files : List String
  extensions : List String
  experimental_options : List (String × PrefDict)
  debugger_address : Option String
  caps : List (String × String)
deriving DecidableEq

/-- The default capabilities a fresh `Options()` starts from
(`DesiredCapabilities.CHROME`). -/
def defaultCaps : List (String × String) := [("browserName", "chrome")]

/-- `Options()`: a freshly constructed options object, every field at its
default. -/
def Options.new : ChromeOptions :=
  { arguments := []
    binary_location := ""
    extension_files := []
    extensions := []
    experimental_options := []
    debugger_address := none
    caps := defaultCaps }

/-- Python dict assignment `d[k] = v`: replace the value at an existing key,
otherwise append the new binding at the end. -/
def dictSet (d : List (String × α)) (k : String) (v : α) : List (String × α) :=
  if d.any (fun p => p.1 == k) then
    d.map (fun p => if p.1 == k then (k, v) else p)
  else
    d ++ [(k, v)]

/-- `Options.add_experimental_option(name, value)`: sets
`self._experimental_options[name] = value`.  It performs no validation and
cannot fail. -/
def add_experimental_option (o : ChromeOptions) (name : String) (value : PrefDict) :
    ChromeOptions :=
  { o with experimental_options := dictSet o.experimental_options name value }

/-- `Options.add_argument(argument)`: appends the argument to
`self._arguments`; selenium raises `ValueError("argument can not be null")`
when the argument is falsy (for a string argument: when it is empty). -/
def add_argument (o : ChromeOptions) (argument : String) : Except String ChromeOptions :=
  if argument = "" then
    Except.error "argument can not be null"
  else
    Except.ok { o with arguments := o.arguments ++ [argument] }

/-- The preferences dictionary literal the source passes to
`add_experimental_option("prefs", {...})`, in source order. -/
def disabledPopupsPrefs : PrefDict :=
  [ ("credentials_enable_service", PrefValue.boolVal false),
    ("profile.password_manager_enabled", PrefValue.boolVal false),
    ("profile.default_content_setting_values.notifications", PrefValue.intVal 2),
    ("profile.password_manager_leak_detection", PrefValue.boolVal false),
    ("password_manager_leak_detection", PrefValue.boolVal false) ]

/-- A `BrowserOptions` instance.  The class declares no attributes and the
method never reads or writes `self`; we model the receiver's instance state
as an arbitrary attribute dictionary so that independence from it is a real
statement. -/
structure BrowserOptions where
  instance_attrs : List (String × String)
deriving DecidableEq

/-- `BrowserOptions.get_chrome_options_with_disabled_popups(self)`:
builds `Options()`, installs the `"prefs"` experimental option, appends the
five argument flags in source order, and returns the options object. -/
def get_chrome_options_with_disabled_popups (self : BrowserOptions) :
    Except String ChromeOptions := do
  let options := Options.new
  let options := add_experimental_option options "prefs" disabledPopupsPrefs
  let options ← add_argument options "--disable-blink-features=AutomationControlled"
  let options ← add_argument options "--disable-extensions"
  let options ← add_argument options "--disable-popup-blocking"
  let options ← add_argument options "--disable-infobars"
  let options ← add_argument options "--disable-save-password-bubble"
  return options

/-- A single call on a receiver: the returned value together with the
receiver's state after the call (the method body never assigns to `self`,
so the state passes through unchanged). -/
def callOnce (s : BrowserOptions) : Except String ChromeOptions × BrowserOptions :=
  (get_chrome_options_with_disabled_popups s, s)

/-- `n` successive calls on the same receiver, threading the receiver's
state from each call to the next; returns the list of results and the final
receiver state. -/
def callRepeated : Nat → BrowserOptions → List (Except String ChromeOptions) × BrowserOptions
  | 0, s => ([], s)
  | n + 1, s =>
    let (r, s1) := callOnce s
    let (rs, s2) := callRepeated n s1
    (r :: rs, s2)

/-- One primitive statement of the method body, for the step-count model. -/
inductive MethodStep where
  | newOptions : MethodStep
  | addExperimentalOption : String → PrefDict → MethodStep
  | addArgument : String → MethodStep
deriving DecidableEq

/-- The method body as its straight-line sequence of primitive statements,
in source order: one constructor call, one `add_experimental_option`, five
`add_argument` calls.  There is no loop, branch, or recursion. -/
def methodBody : List MethodStep :=
  [ MethodStep.newOptions,
    MethodStep.addExperimentalOption "prefs" disabledPopupsPrefs,
    MethodStep.addArgument "--disable-blink-features=AutomationControlled",
    MethodStep.addArgument "--disable-extensions",
    MethodStep.addArgument "--disable-popup-blocking",
    MethodStep.addArgument "--disable-infobars",
    MethodStep.addArgument "--disable-save-password-bubble" ]

/-- Execute one primitive statement. -/
def execStep (o : Except String ChromeOptions) (s : MethodStep) :
    Except String ChromeOptions :=
  match s with
  | MethodStep.newOptions => Except.ok Options.new
  | MethodStep.addExperimentalOption n v =>
      o.bind (fun x => Except.ok (add_experimental_option x n v))
  | MethodStep.addArgument a => o.bind (fun x => add_argument x a)

/-- Run the whole straight-line body. -/
def runMethod : Except String ChromeOptions :=
  methodBody.foldl execStep (Except.ok Options.new)

/-- The configuration the spec says every call must return: exactly the five
preferences under the single `"prefs"` experimental option, the five flags
in order, every other field at its fresh-`Options()` default. -/
def expectedOptions : ChromeOptions :=
  { arguments :=
      [ "--disable-blink-features=AutomationControlled",
        "--disable-extensions",
        "--disable-popup-blocking",
        "--disable-infobars",
        "--disable-save-password-bubble" ]
    binary_location := ""
    extension_files := []
    extensions := []
    experimental_options := [("prefs", disabledPopupsPrefs)]
    debugger_address := none
    caps := defaultCaps }

/-- Claim C1: every call to `get_chrome_options_with_disabled_popups` returns
a configuration whose `"prefs"` preferences map contains exactly the five
keys `credentials_enable_service`, `profile.password_manager_enabled`,
`profile.default_content_setting_values.notifications`,
`profile.password_manager_leak_detection` and
`password_manager_leak_detection`, mapped respectively to `false`, `false`,
`2`, `false`, `false`, and no other keys. -/
theorem prefs_map_exact (s : BrowserOptions) :
    ∃ o, get_chrome_options_with_disabled_popups s = Except.ok o ∧
      ∃ prefs, o.experimental_options.lookup "prefs" = some prefs ∧
        prefs.map Prod.fst =
          [ "credentials_enable_service",
            "profile.password_manager_enabled",
            "profile.default_content_setting_values.notifications",
            "profile.password_manager_leak_detection",
            "password_manager_leak_detection" ] ∧
        prefs.lookup "credentials_enable_service" = some (PrefValue.boolVal false) ∧
        prefs.lookup "profile.password_manager_enabled" = some (PrefValue.boolVal false) ∧
        prefs.lookup "profile.default_content_setting_values.notifications" =
          some (PrefValue.intVal 2) ∧
        prefs.lookup "profile.password_manager_leak_detection" =
          some (PrefValue.boolVal false) ∧
        prefs.lookup "password_manager_leak_detection" = some (PrefValue.boolVal false) :=
  ⟨expectedOptions, rfl, disabledPopupsPrefs, rfl, rfl, rfl, rfl, rfl, rfl, rfl⟩

/-- Claim C2: every call returns a configuration whose argument-flag list has
length 5 and equals, in order, the five literal flags of the source, each
occurring exactly once. -/
theorem argument_flags_exact (s : BrowserOptions) :
    ∃ o, get_chrome_options_with_disabled_popups s = Except.ok o ∧
      o.arguments =
        [ "--disable-blink-features=AutomationControlled",
          "--disable-extensions",
          "--disable-popup-blocking",
          "--disable-infobars",
          "--disable-save-password-bubble" ] ∧
      o.arguments.length = 5 ∧
      o.arguments.count "--disable-blink-features=AutomationControlled" = 1 ∧
      o.arguments.count "--disable-extensions" = 1 ∧
      o.arguments.count "--disable-popup-blocking" = 1 ∧
      o.arguments.count "--disable-infobars" = 1 ∧
      o.arguments.count "--disable-save-password-bubble" = 1 :=
  ⟨expectedOptions, rfl, rfl, rfl, by decide, by decide, by decide, by decide, by decide⟩

/-- Claim C3: the factory is deterministic and pure: any two calls, on any
receivers, return value-equal configurations, every call returns the same
fixed value, and a call leaves the receiver's state untouched. -/
theorem deterministic_and_pure (s t : BrowserOptions) :
    (callOnce s).1 = (callOnce t).1 ∧
    (callOnce s).1 = Except.ok expectedOptions ∧
    (callOnce s).2 = s :=
  ⟨rfl, rfl, rfl⟩

/-- Claim C4: every call yields a configuration where the preference
`profile.default_content_setting_values.notifications` equals `2` and the
argument flag at zero-based index 2 is `--disable-popup-blocking`. -/
theorem concrete_scenario (s : BrowserOptions) :
    ∃ o, get_chrome_options_with_disabled_popups s = Except.ok o ∧
      (o.experimental_options.lookup "prefs").bind
          (fun prefs => prefs.lookup "profile.default_content_setting_values.notifications") =
        some (PrefValue.intVal 2) ∧
      o.arguments[2]? = some "--disable-popup-blocking" :=
  ⟨expectedOptions, rfl, rfl, rfl⟩

/-- Claim C5: calling the factory `n` times in sequence produces `n`
value-equal results (each the same fresh configuration value), and no call
mutates state observed by a subsequent call: the receiver's state after the
`n` calls is the state before them. -/
theorem repeated_calls_value_equal (n : Nat) (s : BrowserOptions) :
    (callRepeated n s).1 = List.replicate n (Except.ok expectedOptions) ∧
    (callRepeated n s).2 = s := by
  induction n with
  | zero => exact ⟨rfl, rfl⟩
  | succ n ih =>
      refine ⟨?_, ih.2⟩
      show Except.ok expectedOptions :: (callRepeated n s).1 =
        List.replicate (n + 1) (Except.ok expectedOptions)
      rw [List.replicate_succ, ih.1]

/-- Claim C6: the factory has no failure modes: with the one fallible
primitive in its body (`add_argument`, which errors on an empty argument)
embedded in `Except`, every call returns `Except.ok`, never an error. -/
theorem never_fails (s : BrowserOptions) :
    ∃ o, get_chrome_options_with_disabled_popups s = Except.ok o :=
  ⟨expectedOptions, rfl⟩

/-- Claim C7: in every returned configuration both
`profile.password_manager_leak_detection` and the unnamespaced
`password_manager_leak_detection` are present in the preferences map, each
exactly once, and both map to `false`: the duplication is preserved
verbatim, not deduplicated. -/
theorem leak_detection_keys_duplicated (s : BrowserOptions) :
    ∃ o, get_chrome_options_with_disabled_popups s = Except.ok o ∧
      ∃ prefs, o.experimental_options.lookup "prefs" = some prefs ∧
        prefs.lookup "profile.password_manager_leak_detection" =
          some (PrefValue.boolVal false) ∧
        prefs.lookup "password_manager_leak_detection" = some (PrefValue.boolVal false) ∧
        (prefs.map Prod.fst).count "profile.password_manager_leak_detection" = 1 ∧
        (prefs.map Prod.fst).count "password_manager_leak_detection" = 1 :=
  ⟨expectedOptions, rfl, disabledPopupsPrefs, rfl, rfl, rfl, by decide, by decide⟩

/-- Claim C8: every call terminates with a value, and the method body is a
fixed straight-line sequence of exactly 7 primitive statements (one
constructor, one `add_experimental_option`, five `add_argument`), so the
number of steps is a constant independent of the call. -/
theorem terminates_in_constant_steps (s : BrowserOptions) :
    get_chrome_options_with_disabled_popups s = runMethod ∧
    methodBody.length = 7 ∧
    ∃ o, get_chrome_options_with_disabled_popups s = Except.ok o :=
  ⟨rfl, rfl, expectedOptions, rfl⟩

/-- Claim C9: the result is independent of the receiver instance: for any two
`BrowserOptions` instances, in any instance state, the method returns
value-equal configurations. -/
theorem receiver_independent (s1 s2 : BrowserOptions) :
    get_chrome_options_with_disabled_popups s1 = get_chrome_options_with_disabled_popups s2 :=
  rfl

/-- Claim C10: the returned options object carries exactly one experimental
option, keyed `"prefs"`; every other field (binary location, extension
files, extensions, debugger address, capabilities) equals the default of a
freshly constructed `Options()`. -/
theorem frame_untouched_fields (s : BrowserOptions) :
    ∃ o, get_chrome_options_with_disabled_popups s = Except.ok o ∧
      o.experimental_options.map Prod.fst = ["prefs"] ∧
      o.experimental_options.lookup "prefs" = some disabledPopupsPrefs ∧
      o.binary_location = Options.new.binary_location ∧
      o.extension_files = Options.new.extension_files ∧
      o.extensions = Options.new.extensions ∧
      o.debugger_address = Options.new.debugger_address ∧
      o.caps = Options.new.caps :=
  ⟨expectedOptions, rfl, rfl, rfl, rfl, rfl, rfl, rfl, rfl⟩

end BrowserOptionsLib
